import Mathlib

/-!
Shallow embedding of the Dream-Drape storefront's order/checkout core
(`app/models.py`, `app/routes.py`, `app/auth.py`) together with proofs of
the behavioural properties stated for it.

Modelling conventions:
* SQLAlchemy rows become Lean structures holding exactly the columns the
  properties speak about; `Float` money columns are modelled as `ℚ`
  (checkout only adds and multiplies prices, and every computation compared
  by a property is performed on the same values in the same order), integer
  columns as `ℤ` so that the possibility of negative stock is expressible.
* The database session becomes an explicit `Store` value threaded through
  the operations; `db.session.rollback()` is returning the original store.
* External collaborators (payment gateways, `werkzeug` password hashing)
  enter as parameters: a `PaymentOutcome` standing for the result of
  `process_payment`, and a `genHash` function standing for
  `generate_password_hash`.
* An ORM attribute access that would raise in Python (a cart line whose
  product row is missing) makes the modelled operation return `none`.
-/

set_option autoImplicit false

namespace DreamDrape

/-- Order.status values (models.py line 156). -/
inductive OrderStatus
  | pending
  | confirmed
  | shipped
  | delivered
  | cancelled
  deriving DecidableEq, Repr

/-- Order.payment_status values (models.py line 157). -/
inductive PaymentStatus
  | pending
  | paid
  | failed
  | refunded
  deriving DecidableEq, Repr

/-- Product row: the columns used by checkout, cancellation and the
catalog-price properties (models.py lines 85-131). -/
structure Product where
  id : Nat
  price : ℚ
  stock_quantity : ℤ
  is_active : Bool
  deriving DecidableEq, Repr

/-- Product.is_in_stock (models.py lines 130-131): `stock_quantity > 0`. -/
def Product.is_in_stock (p : Product) : Bool :=
  p.stock_quantity > 0

/-- CartItem row: one cart line of the current user (models.py lines 133-143). -/
structure CartItem where
  product_id : Nat
  quantity : ℤ
  size : String
  color : String
  deriving DecidableEq, Repr

/-- CartItem.get_total (models.py lines 142-143) given the resolved product:
`self.product.price * self.quantity`. -/
def CartItem.get_total (it : CartItem) (p : Product) : ℚ :=
  p.price * it.quantity

/-- OrderItem row (models.py lines 182-189): quantity plus the price frozen
at order time. -/
structure OrderItem where
  product_id : Nat
  quantity : ℤ
  price : ℚ
  size : String
  color : String
  deriving DecidableEq, Repr

/-- OrderItem.get_total (models.py lines 191-192): `self.price * self.quantity`. -/
def OrderItem.get_total (it : OrderItem) : ℚ :=
  it.price * it.quantity

/-- Order row (models.py lines 151-176) restricted to the columns the
properties mention, with its owned OrderItem children inlined. -/
structure Order where
  id : Nat
  total_amount : ℚ
  status : OrderStatus
  payment_status : PaymentStatus
  payment_method : String
  payment_id : Option String
  order_items : List OrderItem
  deriving DecidableEq, Repr

/-- Database state seen by one user's requests: the product table, that
user's cart lines, and that user's orders. -/
structure Store where
  products : List Product
  cart : List CartItem
  orders : List Order
  deriving DecidableEq, Repr

/-- ORM lookup `Product.query.get` / `item.product`: first row with the id. -/
def lookupProduct : List Product → Nat → Option Product
  | [], _ => none
  | p :: rest, pid => if p.id = pid then some p else lookupProduct rest pid

/-- ORM lookup `Order.query.filter_by(id=...).first()`. -/
def lookupOrder : List Order → Nat → Option Order
  | [], _ => none
  | o :: rest, oid => if o.id = oid then some o else lookupOrder rest oid

/-- In-place mutation of the row `lookupProduct` would return: rewrite the
first product carrying the id. -/
def updateProduct (ps : List Product) (pid : Nat) (f : Product → Product) : List Product :=
  match ps with
  | [] => []
  | p :: rest => if p.id = pid then f p :: rest else p :: updateProduct rest pid f

/-- In-place mutation of the row `lookupOrder` would return. -/
def updateOrder (os : List Order) (oid : Nat) (f : Order → Order) : List Order :=
  match os with
  | [] => []
  | o :: rest => if o.id = oid then f o :: rest else o :: updateOrder rest oid f

/-- db.session.delete(item) on a cart line: remove the first equal record. -/
def removeFirst (c : List CartItem) (x : CartItem) : List CartItem :=
  match c with
  | [] => []
  | y :: rest => if y = x then rest else y :: removeFirst rest x

/-- Availability loop of checkout (routes.py lines 247-253): walk the cart
lines in order; `none` when a line's product row is missing (the attribute
access would raise), `some (some item)` for the first line whose product is
inactive or fails `is_in_stock` (that line gets deleted and checkout
redirects), `some none` when every line passes. -/
def validateCart (ps : List Product) : List CartItem → Option (Option CartItem)
  | [] => some none
  | it :: rest =>
    match lookupProduct ps it.product_id with
    | none => none
    | some p =>
      if !p.is_active || !p.is_in_stock then some (some it)
      else validateCart ps rest

/-- total = sum(item.get_total() for item in cart_items) (routes.py line 255);
`none` when some line's product row is missing. -/
def cartTotal (ps : List Product) : List CartItem → Option ℚ
  | [] => some 0
  | it :: rest => do
    let p ← lookupProduct ps it.product_id
    let t ← cartTotal ps rest
    pure (it.get_total p + t)

/-- OrderItem construction loop (routes.py lines 322-331): one OrderItem per
cart line, price snapshotted from the product's current price. -/
def mkOrderItems (ps : List Product) : List CartItem → Option (List OrderItem)
  | [] => some []
  | it :: rest => do
    let p ← lookupProduct ps it.product_id
    let tail ← mkOrderItems ps rest
    pure ({ product_id := it.product_id, quantity := it.quantity, price := p.price,
            size := it.size, color := it.color } :: tail)

/-- Stock update loop of checkout (routes.py line 334):
`cart_item.product.stock_quantity -= cart_item.quantity` for every cart line. -/
def decrementAll (ps : List Product) (cart : List CartItem) : List Product :=
  cart.foldl
    (fun acc it =>
      updateProduct acc it.product_id
        (fun p => { p with stock_quantity := p.stock_quantity - it.quantity }))
    ps

/-- Result of the external `process_payment` call (payments.py lines 312-344):
a success dict with a transaction id, a failure dict with an error message,
or a raised PaymentError. -/
inductive PaymentOutcome
  | success (transaction_id : String)
  | failure (error : String)
  | raised (msg : String)
  deriving DecidableEq, Repr

/-- Outcome of the payment step of checkout (routes.py lines 295-319): for
method `cod` the step is skipped and payment_status stays `pending`;
otherwise the gateway outcome decides. -/
inductive PayStep
  | failed (err : String)
  | raisedErr (msg : String)
  | paid (payment_status : PaymentStatus) (payment_id : Option String)
  deriving DecidableEq, Repr

def paymentStep (pm : String) (pay : PaymentOutcome) : PayStep :=
  if pm = "cod" then .paid .pending none
  else
    match pay with
    | .success tid => .paid .paid (some tid)
    | .failure err => .failed err
    | .raised msg => .raisedErr msg

/-- Observable result of one checkout request. -/
inductive CheckoutResult
  | emptyCart
  | itemUnavailable (pid : Nat)
  | paymentFailed (err : String)
  | paymentRaised (msg : String)
  | processingError
  | placed (order : Order)
  deriving DecidableEq, Repr

/-- checkout (routes.py lines 236-354), POST path with a validated form:
empty-cart redirect; availability loop deleting the first unavailable line;
total computation; payment step (rollback to the incoming store on failure
or PaymentError); order + order-item creation with price snapshots; stock
decrement; cart clearing; commit.  `oid` is the id the database assigns to
the new order row; `none` models the request crashing on a missing product
row. -/
def checkout (s : Store) (pm : String) (pay : PaymentOutcome) (oid : Nat) :
    Option (CheckoutResult × Store) :=
  if s.cart.isEmpty then some (.emptyCart, s)
  else
    match validateCart s.products s.cart with
    | none => none
    | some (some bad) =>
        some (.itemUnavailable bad.product_id, { s with cart := removeFirst s.cart bad })
    | some none =>
      match cartTotal s.products s.cart with
      | none => none
      | some total =>
        match paymentStep pm pay with
        | .failed err => some (.paymentFailed err, s)
        | .raisedErr msg => some (.paymentRaised msg, s)
        | .paid pstat pid =>
          match mkOrderItems s.products s.cart with
          | none => some (.processingError, s)
          | some items =>
            let order : Order :=
              { id := oid, total_amount := total, status := .pending,
                payment_status := pstat, payment_method := pm, payment_id := pid,
                order_items := items }
            some (.placed order,
              { products := decrementAll s.products s.cart, cart := [],
                orders := s.orders ++ [order] })

/-- Stock restoration loop of cancel_order (auth.py lines 285-288): for each
order item, if its product row still exists (`if item.product:`), add the
item's quantity back to that product's stock. -/
def restoreStock : List Product → List OrderItem → List Product
  | ps, [] => ps
  | ps, it :: rest =>
    restoreStock
      (match lookupProduct ps it.product_id with
       | none => ps
       | some _ =>
         updateProduct ps it.product_id
           (fun p => { p with stock_quantity := p.stock_quantity + it.quantity }))
      rest

/-- Observable result of one cancel_order request. -/
inductive CancelResult
  | cancelled
  | notCancellable
  | notFound
  deriving DecidableEq, Repr

/-- cancel_order (auth.py lines 270-299): 404 when the order is missing;
orders in status pending or confirmed are set to cancelled and their items'
quantities are added back to stock; any other status leaves everything
unchanged and flashes an error. -/
def cancel_order (s : Store) (oid : Nat) : Store × CancelResult :=
  match lookupOrder s.orders oid with
  | none => (s, .notFound)
  | some o =>
    if o.status = .pending ∨ o.status = .confirmed then
      ({ s with
          orders := updateOrder s.orders oid (fun q => { q with status := .cancelled }),
          products := restoreStock s.products o.order_items },
       .cancelled)
    else (s, .notCancellable)

/-- Admin product edit (admin.py line 183): `product.price = form.price.data`,
the only write the catalog-price property needs. -/
def set_product_price (s : Store) (pid : Nat) (newPrice : ℚ) : Store :=
  { s with products := updateProduct s.products pid (fun p => { p with price := newPrice }) }

/-- User row restricted to the login-lockout columns
(models.py lines 29-33).  Timestamps are minutes as natural numbers. -/
structure UserAcct where
  is_active : Bool
  failed_login_attempts : Nat
  locked_until : Option Nat
  deriving DecidableEq, Repr

/-- User.is_account_locked (models.py lines 71-72):
`self.locked_until and self.locked_until > datetime.utcnow()`. -/
def UserAcct.is_account_locked (u : UserAcct) (now : Nat) : Bool :=
  match u.locked_until with
  | none => false
  | some t => now < t

/-- Observable result of one login request. -/
inductive LoginResult
  | lockedOut
  | success
  | invalid
  deriving DecidableEq, Repr

/-- Lockout state machine of login (auth.py lines 27-55) for an existing
user: a locked account rejects the attempt unchanged; a correct password on
an active account resets the counter and clears the lock; otherwise the
counter is incremented and, upon reaching 5, `locked_until` is set 30
minutes ahead.  `password_ok` stands for `user.check_password(...)`. -/
def login (u : UserAcct) (password_ok : Bool) (now : Nat) : UserAcct × LoginResult :=
  if u.is_account_locked now then (u, .lockedOut)
  else if password_ok && u.is_active then
    ({ u with failed_login_attempts := 0, locked_until := none }, .success)
  else
    let n := u.failed_login_attempts + 1
    ({ u with
        failed_login_attempts := n,
        locked_until := if 5 ≤ n then some (now + 30) else u.locked_until },
     .invalid)

/-- User.validate_password_strength (models.py lines 49-60): length at least
8, and at least one ASCII uppercase letter, lowercase letter and digit
(Python's `[A-Z]`, `[a-z]`, `[0-9]` character classes). -/
def validate_password_strength (password : String) : Bool :=
  if password.length < 8 then false
  else if !(password.toList.any (fun c => decide ('A' ≤ c) && decide (c ≤ 'Z'))) then false
  else if !(password.toList.any (fun c => decide ('a' ≤ c) && decide (c ≤ 'z'))) then false
  else if !(password.toList.any (fun c => decide ('0' ≤ c) && decide (c ≤ '9'))) then false
  else true

/-- User row restricted to the password column. -/
structure PwUser where
  password_hash : String
  deriving DecidableEq, Repr

/-- User.set_password (models.py lines 41-44): raise ValueError (flag `true`)
when the strength check fails, leaving the row as it was; otherwise store
`generate_password_hash(password)`, abstracted as `genHash`. -/
def set_password (u : PwUser) (password : String) (genHash : String → String) :
    PwUser × Bool :=
  if !validate_password_strength password then (u, true)
  else ({ u with password_hash := genHash password }, false)

/-- Total quantity the order items referencing a given product would restore. -/
def itemsQty (items : List OrderItem) (pid : Nat) : ℤ :=
  (items.map fun it => if it.product_id = pid then it.quantity else 0).sum

/-- Concrete product for the worked examples of the spec: price 899, active. -/
def demoProduct (stock : ℤ) : Product :=
  { id := 1, price := 899, stock_quantity := stock, is_active := true }

/-- Store holding one cart line of `q` units of `demoProduct stock`. -/
def demoStore (stock q : ℤ) : Store :=
  { products := [demoProduct stock],
    cart := [{ product_id := 1, quantity := q, size := "M", color := "Red" }],
    orders := [] }

/-- Order a COD checkout of `demoStore stock 2` produces. -/
def codOrder : Order :=
  { id := 1, total_amount := 1798, status := .pending, payment_status := .pending,
    payment_method := "cod", payment_id := none,
    order_items := [{ product_id := 1, quantity := 2, price := 899, size := "M", color := "Red" }] }

/-- Order a successful Stripe checkout of `demoStore stock 2` produces. -/
def stripeOrder : Order :=
  { codOrder with payment_method := "stripe", payment_status := .paid, payment_id := some "tid" }

/-- Store left behind by the COD checkout of `demoStore 25 2`. -/
def afterStore : Store :=
  { products := [demoProduct 23], cart := [], orders := [codOrder] }

/-- Pending order over two units of product 1, used to exercise cancellation. -/
def pendingOrder : Order :=
  { id := 5, total_amount := 1798, status := .pending, payment_status := .pending,
    payment_method := "cod", payment_id := none,
    order_items := [{ product_id := 1, quantity := 2, price := 899, size := "M", color := "Red" }] }

/-- Store holding `pendingOrder` and its product at stock 23. -/
def cancelStore : Store :=
  { products := [demoProduct 23], cart := [], orders := [pendingOrder] }

/-- Shipped variant of `pendingOrder`. -/
def shippedOrder : Order :=
  { pendingOrder with id := 6, status := .shipped }

/-- Store holding `shippedOrder` and its product at stock 23. -/
def shippedStore : Store :=
  { products := [demoProduct 23], cart := [], orders := [shippedOrder] }

/-- C7: for a cart of one line with quantity 2 of an active product of price
899 and stock 25, a COD checkout (whatever the gateway would have answered:
the payment step is skipped) places an order with total_amount 1798, leaves
the product's stock at 23, and leaves the cart empty. -/
theorem checkout_cod_example :
    ∀ pay : PaymentOutcome,
      checkout (demoStore 25 2) "cod" pay 1 = some (.placed codOrder, afterStore) ∧
      codOrder.total_amount = 1798 ∧
      afterStore.products = [demoProduct 23] ∧
      (demoProduct 23).stock_quantity = 23 ∧
      afterStore.cart = [] := by
  intro pay
  refine ⟨?_, by norm_num [codOrder], rfl, by decide, rfl⟩
  norm_num [checkout, demoStore, demoProduct, validateCart, lookupProduct, Product.is_in_stock,
    cartTotal, CartItem.get_total, mkOrderItems, paymentStep, decrementAll, updateProduct,
    codOrder, afterStore]

/-- C1 fails on the code: checkout only checks `is_in_stock()` (stock > 0),
never that the cart quantity fits the stock, so a product entering checkout
with stock 1 against a cart line of quantity 2 ends at stock −1. -/
theorem checkout_drives_stock_negative :
    0 ≤ (demoProduct 1).stock_quantity ∧
    checkout (demoStore 1 2) "cod" (.success "tid") 1 =
      some (.placed codOrder,
        { products := [demoProduct (-1)], cart := [], orders := [codOrder] }) ∧
    (demoProduct (-1)).stock_quantity < 0 := by
  refine ⟨by decide, ?_, by decide⟩
  norm_num [checkout, demoStore, demoProduct, validateCart, lookupProduct, Product.is_in_stock,
    cartTotal, CartItem.get_total, mkOrderItems, paymentStep, decrementAll, updateProduct,
    codOrder]

/-- C2 fails on the code: with stock 1 and cart quantity 2 the availability
loop passes (stock > 0), so checkout reaches the payment step — a gateway
failure is reported as a payment failure, and a gateway success places the
order, clears the cart and drives the stock to −1 — instead of rejecting
before payment with the cart retained. -/
theorem checkout_oversell_reaches_payment :
    checkout (demoStore 1 2) "stripe" (.failure "card declined") 1 =
      some (.paymentFailed "card declined", demoStore 1 2) ∧
    checkout (demoStore 1 2) "stripe" (.success "tid") 1 =
      some (.placed stripeOrder,
        { products := [demoProduct (-1)], cart := [], orders := [stripeOrder] }) := by
  have h1 : paymentStep "stripe" (PaymentOutcome.failure "card declined") =
      PayStep.failed "card declined" := by decide
  have h2 : paymentStep "stripe" (PaymentOutcome.success "tid") =
      PayStep.paid .paid (some "tid") := by decide
  constructor
  · norm_num [checkout, demoStore, demoProduct, validateCart, lookupProduct, Product.is_in_stock,
      cartTotal, CartItem.get_total, h1]
  · norm_num [checkout, demoStore, demoProduct, validateCart, lookupProduct, Product.is_in_stock,
      cartTotal, CartItem.get_total, mkOrderItems, h2, decrementAll, updateProduct,
      stripeOrder, codOrder]

/-- Inversion of a checkout that placed an order: the validation passed, the
order carries the cart's total and snapshot items, and the final store has
the decremented stock, an empty cart and the order appended. -/
theorem checkout_placed_inv (s : Store) (pm : String) (pay : PaymentOutcome) (oid : Nat)
    (o : Order) (s2 : Store)
    (h : checkout s pm pay oid = some (.placed o, s2)) :
    cartTotal s.products s.cart = some o.total_amount ∧
    mkOrderItems s.products s.cart = some o.order_items ∧
    s2 = { products := decrementAll s.products s.cart, cart := [],
           orders := s.orders ++ [o] } := by
  unfold checkout at h
  split at h
  · exact absurd h (by simp)
  · split at h
    · exact absurd h (by simp)
    · exact absurd h (by simp)
    · split at h
      · exact absurd h (by simp)
      · rename_i total htot
        split at h
        · exact absurd h (by simp)
        · exact absurd h (by simp)
        · split at h
          · exact absurd h (by simp)
          · rename_i items hitems
            rw [Option.some_inj, Prod.mk.injEq] at h
            obtain ⟨ho, hs⟩ := h
            injection ho with ho
            subst ho
            exact ⟨htot, hitems, hs.symm⟩

/-- The snapshot items a checkout creates from a cart carry exactly the
cart's total: sum of price times quantity. -/
theorem mkOrderItems_sum (ps : List Product) :
    ∀ (c : List CartItem) (t : ℚ) (items : List OrderItem),
      cartTotal ps c = some t → mkOrderItems ps c = some items →
      (items.map OrderItem.get_total).sum = t := by
  intro c
  induction c with
  | nil =>
    intro t items h1 h2
    simp only [cartTotal, Option.some_inj] at h1
    simp only [mkOrderItems, Option.some_inj] at h2
    subst h1
    subst h2
    simp
  | cons it rest ih =>
    intro t items h1 h2
    cases hlp : lookupProduct ps it.product_id with
    | none => simp [cartTotal, hlp] at h1
    | some p =>
      cases htr : cartTotal ps rest with
      | none => simp [cartTotal, hlp, htr] at h1
      | some tr =>
        cases htail : mkOrderItems ps rest with
        | none => simp [mkOrderItems, hlp, htail] at h2
        | some tail =>
          simp [cartTotal, hlp, htr] at h1
          simp [mkOrderItems, hlp, htail] at h2
          subst h1
          subst h2
          simp [OrderItem.get_total, CartItem.get_total, ih tr tail htr htail]

/-- C3: every placed order's total_amount equals the sum over its order
items of price times quantity. -/
theorem checkout_total_is_item_sum (s : Store) (pm : String) (pay : PaymentOutcome)
    (oid : Nat) (o : Order) (s2 : Store)
    (h : checkout s pm pay oid = some (.placed o, s2)) :
    o.total_amount = (o.order_items.map OrderItem.get_total).sum := by
  obtain ⟨h1, h2, -⟩ := checkout_placed_inv s pm pay oid o s2 h
  exact (mkOrderItems_sum s.products s.cart o.total_amount o.order_items h1 h2).symm

/-- Witness for C3 at the spec's worked example. -/
theorem checkout_total_is_item_sum_witness :
    codOrder.total_amount = (codOrder.order_items.map OrderItem.get_total).sum :=
  checkout_total_is_item_sum (demoStore 25 2) "cod" (.success "tid") 1 codOrder afterStore
    (by norm_num [checkout, demoStore, demoProduct, validateCart, lookupProduct,
      Product.is_in_stock, cartTotal, CartItem.get_total, mkOrderItems, paymentStep,
      decrementAll, updateProduct, codOrder, afterStore])

/-- A cart that passed the availability loop has a computable total: every
line's product row was dereferenced by the loop. -/
theorem validateCart_cartTotal_isSome (ps : List Product) :
    ∀ c : List CartItem, validateCart ps c = some none → (cartTotal ps c).isSome := by
  intro c
  induction c with
  | nil => intro _; simp [cartTotal]
  | cons it rest ih =>
    intro h
    cases hlp : lookupProduct ps it.product_id with
    | none => simp [validateCart, hlp] at h
    | some p =>
      cases hb : (!p.is_active || !p.is_in_stock) with
      | true => simp [validateCart, hlp, hb] at h
      | false =>
        simp only [validateCart, hlp, hb, Bool.false_eq_true, if_false] at h
        obtain ⟨tr, htr⟩ := Option.isSome_iff_exists.mp (ih h)
        simp [cartTotal, hlp, htr]

/-- C4: when the gateway reports a failure or raises PaymentError on a
non-cash checkout whose cart is non-empty and passed the availability loop,
checkout reports the error and returns the incoming store unchanged: no
order, no stock change, the cart intact. -/
theorem checkout_payment_failure_rollback (s : Store) (pm err msg : String) (oid : Nat)
    (h1 : s.cart.isEmpty = false)
    (h2 : validateCart s.products s.cart = some none)
    (h3 : pm ≠ "cod") :
    checkout s pm (.failure err) oid = some (.paymentFailed err, s) ∧
    checkout s pm (.raised msg) oid = some (.paymentRaised msg, s) := by
  obtain ⟨t, ht⟩ :=
    Option.isSome_iff_exists.mp (validateCart_cartTotal_isSome s.products s.cart h2)
  have hp1 : paymentStep pm (.failure err) = .failed err := by
    unfold paymentStep; rw [if_neg h3]
  have hp2 : paymentStep pm (.raised msg) = .raisedErr msg := by
    unfold paymentStep; rw [if_neg h3]
  constructor <;> simp [checkout, h1, h2, ht, hp1, hp2]

/-- Witness for C4: a Stripe failure and a raised PaymentError both leave the
example store untouched. -/
theorem checkout_payment_failure_rollback_witness :
    checkout (demoStore 25 2) "stripe" (.failure "card declined") 1 =
      some (.paymentFailed "card declined", demoStore 25 2) ∧
    checkout (demoStore 25 2) "stripe" (.raised "gateway down") 1 =
      some (.paymentRaised "gateway down", demoStore 25 2) :=
  checkout_payment_failure_rollback (demoStore 25 2) "stripe" "card declined" "gateway down" 1
    (by decide) (by decide) (by decide)

/-- Rewriting the first product row carrying `pid` with an id-preserving
function maps the lookup of `pid` and leaves every other lookup alone. -/
theorem lookupProduct_updateProduct (pid pid2 : Nat) (f : Product → Product)
    (hf : ∀ p, (f p).id = p.id) :
    ∀ ps : List Product,
      lookupProduct (updateProduct ps pid f) pid2 =
        if pid2 = pid then (lookupProduct ps pid2).map f else lookupProduct ps pid2 := by
  intro ps
  induction ps with
  | nil => simp [updateProduct, lookupProduct]
  | cons p rest ih =>
    simp only [updateProduct]
    by_cases hp : p.id = pid
    · rw [if_pos hp]
      simp only [lookupProduct, hf p, hp]
      by_cases h2 : pid2 = pid
      · subst h2
        simp [lookupProduct, hp]
      · have h3 : ¬(pid = pid2) := fun hh => h2 hh.symm
        simp [lookupProduct, hp, h2, h3]
    · rw [if_neg hp]
      simp only [lookupProduct]
      by_cases h2 : pid2 = pid
      · subst h2
        simp [ih, hp]
      · simp [ih, hp, h2]

/-- Rewriting the first order row carrying `oid` with an id-preserving
function maps the lookup of `oid` and leaves every other lookup alone. -/
theorem lookupOrder_updateOrder (oid oid2 : Nat) (f : Order → Order)
    (hf : ∀ o, (f o).id = o.id) :
    ∀ os : List Order,
      lookupOrder (updateOrder os oid f) oid2 =
        if oid2 = oid then (lookupOrder os oid2).map f else lookupOrder os oid2 := by
  intro os
  induction os with
  | nil => simp [updateOrder, lookupOrder]
  | cons o rest ih =>
    simp only [updateOrder]
    by_cases hp : o.id = oid
    · rw [if_pos hp]
      simp only [lookupOrder, hf o, hp]
      by_cases h2 : oid2 = oid
      · subst h2
        simp [lookupOrder, hp]
      · have h3 : ¬(oid = oid2) := fun hh => h2 hh.symm
        simp [lookupOrder, hp, h2, h3]
    · rw [if_neg hp]
      simp only [lookupOrder]
      by_cases h2 : oid2 = oid
      · subst h2
        simp [ih, hp]
      · simp [ih, hp, h2]

/-- Effect of the stock restoration loop on every product lookup: the stock
grows by the total quantity of the order items referencing that product. -/
theorem lookupProduct_restoreStock (items : List OrderItem) :
    ∀ (ps : List Product) (pid : Nat),
      lookupProduct (restoreStock ps items) pid =
        (lookupProduct ps pid).map
          (fun p => { p with stock_quantity := p.stock_quantity + itemsQty items pid }) := by
  induction items with
  | nil =>
    intro ps pid
    cases h : lookupProduct ps pid <;> simp [restoreStock, itemsQty, h]
  | cons it rest ih =>
    intro ps pid
    cases hlp : lookupProduct ps it.product_id with
    | none =>
      simp only [restoreStock, hlp]
      rw [ih ps pid]
      by_cases hpid : it.product_id = pid
      · subst hpid
        simp [hlp]
      · simp [itemsQty, hpid]
    | some q =>
      simp only [restoreStock, hlp]
      rw [ih _ pid]
      rw [lookupProduct_updateProduct it.product_id pid
        (fun p => { p with stock_quantity := p.stock_quantity + it.quantity })
        (fun p => rfl) ps]
      by_cases hpid : pid = it.product_id
      · rw [if_pos hpid]
        subst hpid
        rw [hlp]
        simp [itemsQty, add_assoc]
      · rw [if_neg hpid]
        have h3 : it.product_id ≠ pid := fun hh => hpid hh.symm
        simp [itemsQty, h3]

/-- C5: an order found in the store is cancelled exactly from status pending
or confirmed — the order's status becomes cancelled and every product's
stock grows by the quantity its order items reference — while a shipped,
delivered or already cancelled order leaves the whole store unchanged and
yields the error result. -/
theorem cancel_order_spec (s : Store) (oid : Nat) (o : Order)
    (h : lookupOrder s.orders oid = some o) :
    ((o.status = .pending ∨ o.status = .confirmed) →
      (cancel_order s oid).2 = .cancelled ∧
      lookupOrder (cancel_order s oid).1.orders oid = some { o with status := OrderStatus.cancelled } ∧
      ∀ pid, lookupProduct (cancel_order s oid).1.products pid =
        (lookupProduct s.products pid).map
          (fun p => { p with stock_quantity := p.stock_quantity + itemsQty o.order_items pid })) ∧
    ((o.status = .shipped ∨ o.status = .delivered ∨ o.status = .cancelled) →
      cancel_order s oid = (s, .notCancellable)) := by
  constructor
  · intro hc
    have h1 : cancel_order s oid =
        ({ s with
            orders := updateOrder s.orders oid (fun q => { q with status := .cancelled }),
            products := restoreStock s.products o.order_items },
         .cancelled) := by
      simp only [cancel_order, h]
      rw [if_pos hc]
    refine ⟨by rw [h1], ?_, ?_⟩
    · rw [h1]
      rw [lookupOrder_updateOrder oid oid
        (fun q => { q with status := OrderStatus.cancelled }) (fun q => rfl) s.orders,
        if_pos rfl, h]
      rfl
    · intro pid
      rw [h1]
      exact lookupProduct_restoreStock o.order_items s.products pid
  · intro hs
    have hc : ¬(o.status = OrderStatus.pending ∨ o.status = OrderStatus.confirmed) := by
      rcases hs with h1 | h1 | h1 <;> simp [h1]
    simp only [cancel_order, h]
    rw [if_neg hc]

/-- Witness for C5: the pending demo order cancels and restores stock 23+2,
the shipped demo order is rejected with the store unchanged. -/
theorem cancel_order_spec_witness :
    ((cancel_order cancelStore 5).2 = .cancelled ∧
      lookupOrder (cancel_order cancelStore 5).1.orders 5 =
        some { pendingOrder with status := OrderStatus.cancelled } ∧
      ∀ pid, lookupProduct (cancel_order cancelStore 5).1.products pid =
        (lookupProduct cancelStore.products pid).map
          (fun p => { p with stock_quantity := p.stock_quantity + itemsQty pendingOrder.order_items pid })) ∧
    cancel_order shippedStore 6 = (shippedStore, .notCancellable) :=
  ⟨(cancel_order_spec cancelStore 5 pendingOrder (by decide)).1 (Or.inl (by decide)),
   (cancel_order_spec shippedStore 6 shippedOrder (by decide)).2 (Or.inl (by decide))⟩

/-- C6: cancelling a second time never changes the store again — after a
successful cancellation the order sits in status cancelled, so the second
request takes the rejection branch and restores no stock — and a second
cancel after a successful one reports the not-cancellable error. -/
theorem cancel_order_idempotent (s : Store) (oid : Nat) :
    (cancel_order (cancel_order s oid).1 oid).1 = (cancel_order s oid).1 ∧
    ((cancel_order s oid).2 = .cancelled →
      (cancel_order (cancel_order s oid).1 oid).2 = .notCancellable) := by
  cases hlo : lookupOrder s.orders oid with
  | none =>
    have h1 : cancel_order s oid = (s, .notFound) := by
      simp [cancel_order, hlo]
    constructor
    · simp [h1]
    · intro hcc
      rw [h1] at hcc
      exact absurd hcc (by simp)
  | some o =>
    by_cases hc : o.status = OrderStatus.pending ∨ o.status = OrderStatus.confirmed
    · have h1 : cancel_order s oid =
          ({ s with
              orders := updateOrder s.orders oid (fun q => { q with status := .cancelled }),
              products := restoreStock s.products o.order_items },
           .cancelled) := by
        simp only [cancel_order, hlo]
        rw [if_pos hc]
      have h2 : lookupOrder
          (updateOrder s.orders oid (fun q => { q with status := OrderStatus.cancelled })) oid =
          some { o with status := OrderStatus.cancelled } := by
        rw [lookupOrder_updateOrder oid oid
          (fun q => { q with status := OrderStatus.cancelled }) (fun q => rfl) s.orders,
          if_pos rfl, hlo]
        rfl
      have h3 : cancel_order (cancel_order s oid).1 oid =
          ((cancel_order s oid).1, .notCancellable) := by
        rw [h1]
        simp only [cancel_order, h2]
        rw [if_neg (by simp)]
      exact ⟨by rw [h3], fun _ => by rw [h3]⟩
    · have h1 : cancel_order s oid = (s, .notCancellable) := by
        simp only [cancel_order, hlo]
        rw [if_neg hc]
      constructor
      · simp [h1]
      · intro hcc
        rw [h1] at hcc
        exact absurd hcc (by simp)

/-- C8: the login lockout state machine — a locked account rejects the
attempt unchanged; a correct password on an active account resets the
counter and clears the lock; any other attempt on an unlocked account
increments the counter, is reported invalid, sets `locked_until` 30 minutes
ahead as soon as the counter reaches 5, and leaves it alone below 5. -/
theorem login_lockout_spec (u : UserAcct) (ok : Bool) (now : Nat) :
    (u.is_account_locked now = true → login u ok now = (u, .lockedOut)) ∧
    (u.is_account_locked now = false → (ok && u.is_active) = true →
      login u ok now = ({ u with failed_login_attempts := 0, locked_until := none }, .success)) ∧
    (u.is_account_locked now = false → (ok && u.is_active) = false →
      (login u ok now).1.failed_login_attempts = u.failed_login_attempts + 1 ∧
      (login u ok now).2 = .invalid ∧
      (5 ≤ u.failed_login_attempts + 1 →
        (login u ok now).1.locked_until = some (now + 30)) ∧
      (u.failed_login_attempts + 1 < 5 →
        (login u ok now).1.locked_until = u.locked_until)) := by
  refine ⟨?_, ?_, ?_⟩
  · intro h1
    simp [login, h1]
  · intro h1 h2
    simp [login, h1, h2]
  · intro h1 h2
    refine ⟨by simp [login, h1, h2], by simp [login, h1, h2], ?_, ?_⟩
    · intro h5
      simp [login, h1, h2, h5]
    · intro h5
      have h6 : ¬(5 ≤ u.failed_login_attempts + 1) := by omega
      simp [login, h1, h2, h6]

/-- C9: a placed order sits in the store, and editing the catalog price of
any product afterwards leaves the stored orders — their item price
snapshots, item totals and total_amount — untouched, because OrderItem
carries its own price column and get_total reads only it. -/
theorem catalog_price_change_frame (s : Store) (pm : String) (pay : PaymentOutcome)
    (oid : Nat) (o : Order) (s2 : Store) (pid : Nat) (np : ℚ)
    (h : checkout s pm pay oid = some (.placed o, s2)) :
    o ∈ s2.orders ∧
    o ∈ (set_product_price s2 pid np).orders ∧
    (set_product_price s2 pid np).orders = s2.orders ∧
    ∀ it ∈ o.order_items, OrderItem.get_total it = it.price * it.quantity := by
  obtain ⟨-, -, hs⟩ := checkout_placed_inv s pm pay oid o s2 h
  subst hs
  exact ⟨by simp, by simp [set_product_price], rfl, fun it _ => rfl⟩

/-- Witness for C9 at the worked example, with the catalog price later
changed to 499. -/
theorem catalog_price_change_frame_witness :
    codOrder ∈ afterStore.orders ∧
    codOrder ∈ (set_product_price afterStore 1 499).orders ∧
    (set_product_price afterStore 1 499).orders = afterStore.orders ∧
    ∀ it ∈ codOrder.order_items, OrderItem.get_total it = it.price * it.quantity :=
  catalog_price_change_frame (demoStore 25 2) "cod" (.success "tid") 1 codOrder afterStore 1 499
    (by norm_num [checkout, demoStore, demoProduct, validateCart, lookupProduct,
      Product.is_in_stock, cartTotal, CartItem.get_total, mkOrderItems, paymentStep,
      decrementAll, updateProduct, codOrder, afterStore])

/-- C10: set_password raises exactly when the strength rule fails — the rule
holding exactly when the password has at least 8 characters and contains an
ASCII uppercase letter, a lowercase letter and a digit — leaving the stored
hash unchanged on failure and storing the hash of the new password
otherwise. -/
theorem set_password_spec (u : PwUser) (pw : String) (gh : String → String) :
    ((set_password u pw gh).2 = true ↔ validate_password_strength pw = false) ∧
    ((set_password u pw gh).2 = true → (set_password u pw gh).1 = u) ∧
    ((set_password u pw gh).2 = false → (set_password u pw gh).1.password_hash = gh pw) ∧
    (validate_password_strength pw = true ↔
      (8 ≤ pw.length ∧
        (∃ c ∈ pw.toList, 'A' ≤ c ∧ c ≤ 'Z') ∧
        (∃ c ∈ pw.toList, 'a' ≤ c ∧ c ≤ 'z') ∧
        (∃ c ∈ pw.toList, '0' ≤ c ∧ c ≤ '9'))) := by
  refine ⟨?_, ?_, ?_, ?_⟩
  · cases hv : validate_password_strength pw <;> simp [set_password, hv]
  · cases hv : validate_password_strength pw <;> simp [set_password, hv]
  · cases hv : validate_password_strength pw <;> simp [set_password, hv]
  · by_cases h1 : pw.length < 8
    · have h8 : ¬(8 ≤ pw.length) := by omega
      simp [validate_password_strength, h1, h8]
    · have h8 : 8 ≤ pw.length := by omega
      by_cases h2 : pw.toList.any (fun c => decide ('A' ≤ c) && decide (c ≤ 'Z')) = true <;>
        by_cases h3 : pw.toList.any (fun c => decide ('a' ≤ c) && decide (c ≤ 'z')) = true <;>
          by_cases h4 : pw.toList.any (fun c => decide ('0' ≤ c) && decide (c ≤ '9')) = true <;>
            simp [validate_password_strength, h1, h8, h2, h3, h4,
              List.any_eq_true, Bool.and_eq_true, decide_eq_true_eq]

end DreamDrape
